import Mathlib

/-!
Shallow embedding of the BMP180 driver (src/BMP180.h, src/BMP180.cpp).

Machine integers are modelled as `Int` with explicit reduction mod `2 ^ 32`:
`toI32` reinterprets a value as a two's-complement signed 32-bit integer
(the value of an `int32_t`), `toU32` as an `uint32_t`.  C++ signed division
truncates toward zero (`Int.tdiv`); an arithmetic right shift of a signed
value floors (`Int.fdiv` by a power of two).  `float` quantities carry no
claim about rounding here and are modelled as exact rationals; the `powf`
collaborator from `<math.h>` is an external library function and is passed
as an explicit parameter to the altitude operations.  The I2C bus transport
(the I2CDevice dependency) is a declared external collaborator; its
big-endian decoding contract is modelled from the interface section of the
specification.  Blocking waits and register traffic are recorded as an
explicit list of effects so that timing claims are statable.
-/

namespace BMP180

/-- Reinterpret an integer as an unsigned 32-bit value (`uint32_t`). -/
def toU32 (x : Int) : Int := x % 2 ^ 32

/-- Reinterpret an integer as a two's-complement signed 32-bit value
(`int32_t`). -/
def toI32 (x : Int) : Int := (x + 2 ^ 31) % 2 ^ 32 - 2 ^ 31

/-- Arithmetic right shift: floor division by a power of two.  This is the
behaviour of `>>` on a (nonnegative or two's-complement negative) value. -/
def asr (x : Int) (n : Nat) : Int := Int.fdiv x (2 ^ n)

/-- Oversampling setting (`BMP180::sampling_t` in src/BMP180.h). -/
inductive sampling_t where
  | samples_1x
  | samples_2x
  | samples_4x
  | samples_8x
deriving DecidableEq

/-- The driver's mutable fields (private data of class `BMP180` in
src/BMP180.h): oversampling parameters, the eleven calibration parameters
(`ac1..ac3 : int32_t`, `ac4..ac6 : uint32_t`, `b1, b2, mb, mc, md :
int32_t`), the temperature intermediate `b5 : int32_t`, and the float
state `temp`, `pres`, `alt_zero` (modelled as exact rationals). -/
structure BMP180State where
  reg_select_oss : Nat
  comp_time_us : Nat
  oss_shift : Nat
  sampling : sampling_t
  ac1 : Int
  ac2 : Int
  ac3 : Int
  ac4 : Int
  ac5 : Int
  ac6 : Int
  b1 : Int
  b2 : Int
  mb : Int
  mc : Int
  md : Int
  b5 : Int
  temp : ℚ
  pres : ℚ
  alt_zero : ℚ
deriving DecidableEq

/-- I2C register constants of src/BMP180.h. -/
def reg_cal_addr : Nat := 0xAA

def reg_id_addr : Nat := 0xD0

def reg_id_val : Nat := 0x55

def reg_select_addr : Nat := 0xF4

def reg_select_temp : Nat := 0x2E

def reg_select_oss1 : Nat := 0x34

def reg_select_oss2 : Nat := 0x74

def reg_select_oss4 : Nat := 0xB4

def reg_select_oss8 : Nat := 0xF4

def reg_data_addr : Nat := 0xF6

/-- Observable interactions with the two collaborators: single-register
reads/writes and block reads on the I2C transport, and blocking waits
(`Platform::wait_us`) on the timing source. -/
inductive Effect where
  | readReg (addr : Nat)
  | writeReg (addr val : Nat)
  | readSeq (addr n : Nat)
  | waitUs (us : Nat)
deriving DecidableEq

/-- The device as seen over the bus: the identification byte at `0xD0` and
the 22-byte calibration block starting at `0xAA`. -/
structure Device where
  idByte : Nat
  cal : List Nat
deriving DecidableEq

/-- Modelled from the spec: the I2CDevice transport (an external
collaborator, not part of src/) assembles two consecutive bytes
most-significant first into an unsigned 16-bit integer. -/
def beU16 (hi lo : Nat) : Nat := 256 * hi + lo

/-- Modelled from the spec: reinterpretation of an unsigned 16-bit value as
a signed (two's-complement) 16-bit value, as done by the transport's
signed 16-bit read. -/
def u16ToI16 (u : Nat) : Int := if u < 32768 then (u : Int) else (u : Int) - 65536

/-- Modelled from the spec: the transport's signed big-endian 16-bit read. -/
def beI16 (hi lo : Nat) : Int := u16ToI16 (beU16 hi lo)

/-- BMP180::set_sampling (src/BMP180.cpp lines 68-94): stores the mode and
selects the mode-dependent pressure-conversion command byte, conversion
delay and bit-shift factor. -/
def set_sampling (s : BMP180State) (m : sampling_t) : BMP180State :=
  match m with
  | sampling_t.samples_1x =>
      { s with sampling := m, reg_select_oss := reg_select_oss1,
               comp_time_us := 4500, oss_shift := 0 }
  | sampling_t.samples_2x =>
      { s with sampling := m, reg_select_oss := reg_select_oss2,
               comp_time_us := 7500, oss_shift := 1 }
  | sampling_t.samples_4x =>
      { s with sampling := m, reg_select_oss := reg_select_oss4,
               comp_time_us := 13500, oss_shift := 2 }
  | sampling_t.samples_8x =>
      { s with sampling := m, reg_select_oss := reg_select_oss8,
               comp_time_us := 25500, oss_shift := 3 }

/-- Decoding of the 22-byte calibration block inside BMP180::init
(src/BMP180.cpp lines 37-49): eleven consecutive big-endian 16-bit fields,
`ac1 ac2 ac3` signed, `ac4 ac5 ac6` unsigned, `b1 b2 mb mc md` signed. -/
def decode_cal (c : List Nat) (s : BMP180State) : BMP180State :=
  { s with
    ac1 := beI16 (c.getD 0 0) (c.getD 1 0)
    ac2 := beI16 (c.getD 2 0) (c.getD 3 0)
    ac3 := beI16 (c.getD 4 0) (c.getD 5 0)
    ac4 := (beU16 (c.getD 6 0) (c.getD 7 0) : Int)
    ac5 := (beU16 (c.getD 8 0) (c.getD 9 0) : Int)
    ac6 := (beU16 (c.getD 10 0) (c.getD 11 0) : Int)
    b1 := beI16 (c.getD 12 0) (c.getD 13 0)
    b2 := beI16 (c.getD 14 0) (c.getD 15 0)
    mb := beI16 (c.getD 16 0) (c.getD 17 0)
    mc := beI16 (c.getD 18 0) (c.getD 19 0)
    md := beI16 (c.getD 20 0) (c.getD 21 0) }

/-- BMP180::init (src/BMP180.cpp lines 29-56): read the identification
register; on mismatch report failure with the state untouched; otherwise
read and decode the calibration block at `0xAA` and select 1x sampling. -/
def init (s : BMP180State) (d : Device) : Bool × BMP180State × List Effect :=
  if d.idByte ≠ reg_id_val then
    (false, s, [Effect.readReg reg_id_addr])
  else
    (true, set_sampling (decode_cal d.cal s) sampling_t.samples_1x,
     [Effect.readReg reg_id_addr, Effect.readSeq reg_cal_addr 22])

/-- The `x1` computation of BMP180::update_temp (src/BMP180.cpp line 133):
`x1 = ((UT - ac6) * ac5) >> 15`.  `UT` is `int32_t` but `ac5` and `ac6` are
declared `uint32_t` (src/BMP180.h line 93), so by the usual arithmetic
conversions the subtraction, the product and the right shift are all
carried out in unsigned 32-bit arithmetic, and the shift is a logical
shift; the result is then converted back to `int32_t`. -/
def temp_x1 (s : BMP180State) (UT : Int) : Int :=
  toI32 (asr (toU32 (toU32 (UT - s.ac6) * s.ac5)) 15)

/-- The `b5` computation of BMP180::update_temp (src/BMP180.cpp lines
133-135): `x2 = (mc << 11) / (x1 + md)` with C++ signed division
(truncation toward zero), then `b5 = x1 + x2`. -/
def temp_b5 (s : BMP180State) (UT : Int) : Int :=
  toI32 (temp_x1 s UT +
         Int.tdiv (toI32 (s.mc * 2 ^ 11)) (toI32 (temp_x1 s UT + s.md)))

/-- The `T` computation of BMP180::update_temp (src/BMP180.cpp line 136):
`T = (b5 + 8) >> 4`, temperature in tenths of a degree Celsius. -/
def temp_T (s : BMP180State) (UT : Int) : Int :=
  asr (toI32 (temp_b5 s UT + 8)) 4

/-- BMP180::update_temp (src/BMP180.cpp lines 108-154): select the
temperature conversion, wait 4500 us, read the raw 16-bit value `UT`
(passed here as the transport-decoded input), run the compensation and
store `b5` and the temperature `T * 0.1` in degrees Celsius. -/
def update_temp (s : BMP180State) (UT : Int) : List Effect × BMP180State :=
  ([Effect.writeReg reg_select_addr reg_select_temp,
    Effect.waitUs 4500,
    Effect.readSeq reg_data_addr 2],
   { s with b5 := temp_b5 s UT, temp := (temp_T s UT : ℚ) * (1 / 10) })

/-- The divisor `b4` of BMP180::update_pres (src/BMP180.cpp lines 209-212).
It depends only on the driver state (`b5`, `ac3`, `b1`, `ac4`), not on the
raw pressure bytes: `b6 = b5 - 4000`, `x1 = (ac3*b6)>>13`,
`x2 = (b1*((b6*b6)>>12))>>16`, `x3 = ((x1+x2)+2)>>2`,
`b4 = (ac4 * (uint32_t)(x3+32768)) >> 15` in unsigned 32-bit arithmetic. -/
def pres_b4 (s : BMP180State) : Int :=
  let b6 := toI32 (s.b5 - 4000)
  let x1 := asr (toI32 (s.ac3 * b6)) 13
  let x2 := asr (toI32 (s.b1 * asr (toI32 (b6 * b6)) 12)) 16
  let x3 := asr (toI32 (toI32 (x1 + x2) + 2)) 2
  asr (toU32 (s.ac4 * toU32 (x3 + 32768))) 15

/-- The compensated pressure integer `p` of BMP180::update_pres
(src/BMP180.cpp lines 163-239), before the final `toI32`.  `msb`, `lsb`,
`xlsb` are the three raw bytes read from the data register; `UP` is
assembled as `((msb<<16) + (lsb<<8) + xlsb) >> (8 - oss_shift)`.  The two
divisions by `b4` are unsigned 32-bit divisions; they are meaningful only
when `b4 ≠ 0` (`update_pres` guards this). -/
def pres_p_core (s : BMP180State) (msb lsb xlsb : Nat) : Int :=
  let UP := toU32 (asr ((msb : Int) * 2 ^ 16 + (lsb : Int) * 2 ^ 8 + (xlsb : Int))
                       (8 - s.oss_shift))
  let b6 := toI32 (s.b5 - 4000)
  let x1 := asr (toI32 (s.b2 * asr (toI32 (b6 * b6)) 12)) 11
  let x2 := asr (toI32 (s.ac2 * b6)) 11
  let x3 := toI32 (x1 + x2)
  let b3 := asr (toI32 (toI32 (toI32 (toI32 (s.ac1 * 2 ^ 2) + x3) * 2 ^ s.oss_shift) + 2)) 2
  let b4 := pres_b4 s
  let b7 := toU32 (toU32 (UP - b3) * toU32 (asr 50000 s.oss_shift))
  let p := if b7 < 2 ^ 31 then toI32 (Int.tdiv (toU32 (b7 * 2)) b4)
           else toI32 (toU32 (Int.tdiv b7 b4) * 2)
  let x1 := asr p 8
  let x1 := toI32 (x1 * x1)
  let x1 := asr (toI32 (x1 * 3038)) 16
  let x2 := asr (toI32 (-7357 * p)) 16
  p + asr (toI32 (toI32 (x1 + x2) + 3791)) 4

/-- Final value stored in `p` by BMP180::update_pres (src/BMP180.cpp line
239): `p = p + ((x1 + x2 + 3791) >> 4)` as an `int32_t`. -/
def pres_p (s : BMP180State) (msb lsb xlsb : Nat) : Int :=
  toI32 (pres_p_core s msb lsb xlsb)

/-- BMP180::update_pres (src/BMP180.cpp lines 161-255): select the
mode-dependent pressure conversion, wait the mode-dependent delay, read the
three raw bytes (passed here as inputs), run the compensation and store the
pressure in pascals scaled by `0.001` to kilopascals.  When the divisor
`b4` is zero the C++ division is undefined behaviour; this is modelled as
`none`.  No field other than `pres` is written. -/
def update_pres (s : BMP180State) (msb lsb xlsb : Nat) : List Effect × Option BMP180State :=
  ([Effect.writeReg reg_select_addr s.reg_select_oss,
    Effect.waitUs s.comp_time_us,
    Effect.readSeq reg_data_addr 3],
   if pres_b4 s = 0 then none
   else some { s with pres := (pres_p s msb lsb xlsb : ℚ) * (1 / 1000) })

/-- BMP180::update (src/BMP180.cpp lines 99-103): temperature update
followed by pressure update. -/
def update (s : BMP180State) (UT : Int) (msb lsb xlsb : Nat) :
    List Effect × Option BMP180State :=
  let r1 := update_temp s UT
  let r2 := update_pres r1.2 msb lsb xlsb
  (r1.1 ++ r2.1, r2.2)

/-- BMP180::get_temp (src/BMP180.cpp lines 262-265). -/
def get_temp (s : BMP180State) : ℚ := s.temp

/-- BMP180::get_pres (src/BMP180.cpp lines 272-275). -/
def get_pres (s : BMP180State) : ℚ := s.pres

/-- Default argument `sea_level_p = 101.325f` of `get_alt` and `zero_alt`
(src/BMP180.h lines 62-65). -/
def default_sea_level_p : ℚ := 101325 / 1000

/-- BMP180::get_alt (src/BMP180.cpp lines 283-287):
`alt = 44330 * (1 - powf(pres / sea_level_p, 0.190295)); return alt -
alt_zero`.  `pw` is the `powf` collaborator from `<math.h>`, passed as an
explicit parameter. -/
def get_alt (pw : ℚ → ℚ → ℚ) (s : BMP180State) (sea_level_p : ℚ) : ℚ :=
  44330 * (1 - pw (s.pres / sea_level_p) (190295 / 1000000)) - s.alt_zero

/-- BMP180::zero_alt (src/BMP180.cpp lines 293-297): perform a full update,
then store `get_alt(sea_level_p)` — the already offset-subtracted altitude —
as the new altitude offset. -/
def zero_alt (pw : ℚ → ℚ → ℚ) (s : BMP180State) (UT : Int) (msb lsb xlsb : Nat)
    (sea_level_p : ℚ) : List Effect × Option BMP180State :=
  let r := update s UT msb lsb xlsb
  (r.1, Option.map (fun t => { t with alt_zero := get_alt pw t sea_level_p }) r.2)

/-- Big-endian encoding of one calibration constant into its two bytes,
following the wire-format table of the interface section of the
specification (the inverse construction for the round-trip property). -/
def encodeI16 (x : Int) : List Nat :=
  [(x % 65536).toNat / 256, (x % 65536).toNat % 256]

/-- Big-endian encoding of the eleven calibration constants into the
22-byte calibration block, in the fixed wire order. -/
def encodeCal (a1 a2 a3 a4 a5 a6 bb1 bb2 m1 m2 m3 : Int) : List Nat :=
  encodeI16 a1 ++ encodeI16 a2 ++ encodeI16 a3 ++ encodeI16 a4 ++
  encodeI16 a5 ++ encodeI16 a6 ++ encodeI16 bb1 ++ encodeI16 bb2 ++
  encodeI16 m1 ++ encodeI16 m2 ++ encodeI16 m3

/-- Ranges of the eleven calibration constants as 16-bit wire values:
`ac1 ac2 ac3` signed, `ac4 ac5 ac6` unsigned, `b1 b2 mb mc md` signed. -/
def calInRange (a1 a2 a3 a4 a5 a6 bb1 bb2 m1 m2 m3 : Int) : Prop :=
  (-32768 ≤ a1 ∧ a1 ≤ 32767) ∧ (-32768 ≤ a2 ∧ a2 ≤ 32767) ∧
  (-32768 ≤ a3 ∧ a3 ≤ 32767) ∧ (0 ≤ a4 ∧ a4 ≤ 65535) ∧
  (0 ≤ a5 ∧ a5 ≤ 65535) ∧ (0 ≤ a6 ∧ a6 ≤ 65535) ∧
  (-32768 ≤ bb1 ∧ bb1 ≤ 32767) ∧ (-32768 ≤ bb2 ∧ bb2 ≤ 32767) ∧
  (-32768 ≤ m1 ∧ m1 ≤ 32767) ∧ (-32768 ≤ m2 ∧ m2 ≤ 32767) ∧
  (-32768 ≤ m3 ∧ m3 ≤ 32767)

instance (a1 a2 a3 a4 a5 a6 bb1 bb2 m1 m2 m3 : Int) :
    Decidable (calInRange a1 a2 a3 a4 a5 a6 bb1 bb2 m1 m2 m3) := by
  unfold calInRange
  infer_instance

/-- A driver state whose fields are all zero (sampling field 1x); used as a
base point for concrete scenarios. -/
def zeroState : BMP180State :=
  { reg_select_oss := 0, comp_time_us := 0, oss_shift := 0,
    sampling := sampling_t.samples_1x,
    ac1 := 0, ac2 := 0, ac3 := 0, ac4 := 0, ac5 := 0, ac6 := 0,
    b1 := 0, b2 := 0, mb := 0, mc := 0, md := 0,
    b5 := 0, temp := 0, pres := 0, alt_zero := 0 }

/-- Driver state holding the manufacturer's worked-example calibration set
(`ac1=408, ac2=-72, ac3=-14383, ac4=32741, ac5=32757, ac6=23153, b1=6190,
b2=4, mb=-32768, mc=-8711, md=2868`), with 1x oversampling configured. -/
def dsState : BMP180State :=
  { zeroState with
    ac1 := 408, ac2 := -72, ac3 := -14383, ac4 := 32741, ac5 := 32757,
    ac6 := 23153, b1 := 6190, b2 := 4, mb := -32768, mc := -8711, md := 2868 }

/-- The worked-example calibration set but with `ac5 = 408` as the claims
about the reference vector state it. -/
def c3State : BMP180State := { dsState with ac5 := 408 }

/-- An all-zero device image: identification byte zero (mismatch) and no
calibration bytes. -/
def devMismatch : Device := { idByte := 0, cal := [] }

/-- A device image whose identification byte matches but whose calibration
block is all zeros (so `ac4 = 0` after decoding). -/
def devZeroCal : Device := { idByte := 0x55, cal := List.replicate 22 0 }

/-- A concrete stand-in for the `powf` collaborator, used to evaluate the
altitude operations at a concrete input. -/
def pwHalf : ℚ → ℚ → ℚ := fun _ _ => 1 / 2

/-- Every `int32_t` reinterpretation is at least `-2^31`. -/
theorem toI32_lb (x : Int) : -2 ^ 31 ≤ toI32 x := by
  unfold toI32
  have h1 : 0 ≤ (x + 2 ^ 31) % 2 ^ 32 := Int.emod_nonneg _ (by norm_num)
  omega

/-- Every `int32_t` reinterpretation is below `2^31`. -/
theorem toI32_ub (x : Int) : toI32 x < 2 ^ 31 := by
  unfold toI32
  have h2 : (x + 2 ^ 31) % 2 ^ 32 < 2 ^ 32 := Int.emod_lt_of_pos _ (by norm_num)
  omega

/-- Decoding the two-byte big-endian encoding of an in-range signed 16-bit
constant recovers the constant. -/
theorem beI16_encodeI16 (x : Int) (h1 : -32768 ≤ x) (h2 : x ≤ 32767) :
    beI16 ((x % 65536).toNat / 256) ((x % 65536).toNat % 256) = x := by
  unfold beI16 beU16 u16ToI16
  have h0 : (0 : Int) ≤ x % 65536 := Int.emod_nonneg x (by norm_num)
  have hlt : x % 65536 < 65536 := Int.emod_lt_of_pos x (by norm_num)
  have hcast : ((x % 65536).toNat : Int) = x % 65536 := Int.toNat_of_nonneg h0
  have hdm : 256 * ((x % 65536).toNat / 256) + (x % 65536).toNat % 256
      = (x % 65536).toNat := by omega
  rw [hdm]
  split_ifs with hsmall <;> omega

/-- Decoding the two-byte big-endian encoding of an in-range unsigned
16-bit constant recovers the constant. -/
theorem beU16_encodeI16 (x : Int) (h1 : 0 ≤ x) (h2 : x ≤ 65535) :
    (beU16 ((x % 65536).toNat / 256) ((x % 65536).toNat % 256) : Int) = x := by
  unfold beU16
  have h0 : (0 : Int) ≤ x % 65536 := Int.emod_nonneg x (by norm_num)
  have hcast : ((x % 65536).toNat : Int) = x % 65536 := Int.toNat_of_nonneg h0
  push_cast
  omega

/-- When the divisor `b4` is nonzero, the pressure stored by `update_pres`
is the compensated integer scaled by `0.001`. -/
theorem update_pres_pres (s : BMP180State) (msb lsb xlsb : Nat)
    (h : pres_b4 s ≠ 0) :
    Option.map BMP180State.pres (update_pres s msb lsb xlsb).2
      = some ((pres_p s msb lsb xlsb : ℚ) * (1 / 1000)) := by
  simp [update_pres, h]

/-- Reading the altitude right after `zero_alt` (with the same reference
pressure and the same `powf` collaborator) reports the pre-call altitude
offset, whatever the fresh readings were: `zero_alt` stores the
offset-subtracted `get_alt()` value, not the raw altitude. -/
theorem get_alt_after_zero_alt (pw : ℚ → ℚ → ℚ) (s : BMP180State) (UT : Int)
    (msb lsb xlsb : Nat) (sea : ℚ)
    (h : pres_b4 (update_temp s UT).2 ≠ 0) :
    ((zero_alt pw s UT msb lsb xlsb sea).2.map (fun t => get_alt pw t sea))
      = some s.alt_zero := by
  simp only [zero_alt, update, update_pres, if_neg h, Option.map_some]
  simp [get_alt, update_temp]

/-- C1: the claim states that `x1 = ((UT - ac6) * ac5) >> 15` is computed
in signed 32-bit arithmetic with an arithmetic (floor) shift, so that `x1`
is the floor of `(UT - ac6) * ac5 / 2^15` even when `UT < ac6`.  The code
declares `ac5` and `ac6` as `uint32_t`, so the arithmetic is unsigned and
the shift logical: with the worked-example calibration (`ac5 = 32757`,
`ac6 = 23153`) and the sub-zero-temperature reading `UT = 23000 < ac6`,
the code produces `x1 = 130919` whereas the claimed floor is `-153`. -/
theorem claim_C1_x1_unsigned_not_floor :
    temp_x1 dsState 23000 = 130919 ∧
    Int.fdiv ((23000 - dsState.ac6) * dsState.ac5) (2 ^ 15) = -153 ∧
    temp_x1 dsState 23000 ≠ Int.fdiv ((23000 - dsState.ac6) * dsState.ac5) (2 ^ 15) := by
  decide

/-- C3 counterexample: with the constants exactly as the claim states them
(`ac5 = 408`, `ac6 = 23153`, `mc = -8711`, `md = 2868`) and `UT = 27898`,
temperature compensation yields `b5 = -6036` and `T = -377`, not the
claimed `b5 = 2399`, `T = 150`. -/
theorem claim_C3_counterexample :
    (update_temp c3State 27898).2.b5 = -6036 ∧ temp_T c3State 27898 = -377 ∧
    ¬ ((update_temp c3State 27898).2.b5 = 2399 ∧ temp_T c3State 27898 = 150) := by
  decide

/-- C3 amended: with the manufacturer's worked-example value `ac5 = 32757`
(the claim's `408` is `ac1`'s value) the code yields `b5 = 2400` and
`T = 150`, i.e. 15.0 degrees Celsius; `b5` is `2400` rather than the
datasheet figure `2399` because C++ signed division truncates toward zero
where the worked example floors `x2`. -/
theorem claim_C3_amended :
    (update_temp dsState 27898).2.b5 = 2400 ∧ temp_T dsState 27898 = 150 ∧
    (update_temp dsState 27898).2.temp = 15 := by
  refine ⟨by decide, by decide, ?_⟩
  have h : temp_T dsState 27898 = 150 := by decide
  show (temp_T dsState 27898 : ℚ) * (1 / 10) = 15
  rw [h]
  norm_num

/-- C4 counterexample: feeding pressure compensation with the temperature
intermediate computed from the claim's own calibration set (which has
`ac5 = 408`, giving `b5 = -6036`), `UP = 23843` (raw bytes 93, 35, 0) and
oversampling shift 0 yields `p = 61831`, i.e. 61.831 kPa, not the claimed
69.964 kPa. -/
theorem claim_C4_counterexample :
    Option.map BMP180State.pres (update c3State 27898 93 35 0).2
      = some (61831 / 1000) ∧ (61831 / 1000 : ℚ) ≠ 69964 / 1000 := by
  constructor
  · have h : pres_b4 (update_temp c3State 27898).2 ≠ 0 := by decide
    have hp : pres_p (update_temp c3State 27898).2 93 35 0 = 61831 := by decide
    show Option.map BMP180State.pres
        (update_pres (update_temp c3State 27898).2 93 35 0).2 = some (61831 / 1000)
    rw [update_pres_pres _ _ _ _ h, hp]
    norm_num
  · norm_num

/-- C4 amended: with `ac5 = 32757` in the preceding temperature
compensation (so `b5 = 2400`), pressure compensation with `ac1 = 408`,
`ac2 = -72`, `ac3 = -14383`, `ac4 = 32741`, `b1 = 6190`, `b2 = 4`,
`UP = 23843` and oversampling shift 0 yields `p = 69964`, i.e. a
calibrated pressure of 69.964 kPa. -/
theorem claim_C4_amended :
    Option.map BMP180State.pres (update dsState 27898 93 35 0).2
      = some (69964 / 1000) := by
  have h : pres_b4 (update_temp dsState 27898).2 ≠ 0 := by decide
  have hp : pres_p (update_temp dsState 27898).2 93 35 0 = 69964 := by decide
  show Option.map BMP180State.pres
      (update_pres (update_temp dsState 27898).2 93 35 0).2 = some (69964 / 1000)
  rw [update_pres_pres _ _ _ _ h, hp]
  norm_num

/-- C5: whenever the identification register returns a byte different from
`reg_id_val`, `init` reports failure and returns the state exactly as it
was; the only bus traffic is the identification read — the calibration
block is never read. -/
theorem claim_C5_id_mismatch (s : BMP180State) (d : Device)
    (h : d.idByte ≠ reg_id_val) :
    init s d = (false, s, [Effect.readReg reg_id_addr]) := by
  simp [init, h]

/-- C5 witness: a device whose identification byte reads 0. -/
theorem claim_C5_witness :
    devMismatch.idByte ≠ reg_id_val ∧
    init zeroState devMismatch = (false, zeroState, [Effect.readReg reg_id_addr]) :=
  ⟨by decide, claim_C5_id_mismatch zeroState devMismatch (by decide)⟩

/-- C6 counterexample: after a successful `init` against a device whose
calibration block is all zeros (which the driver accepts — `ac4 = 0`), the
pressure-compensation divisor `b4` is zero and the division in
`update_pres` is undefined behaviour (modelled as `none`), refuting the
claim that `b4` is nonzero for every state reachable after successful
initialization. -/
theorem claim_C6_counterexample :
    (init zeroState devZeroCal).1 = true ∧
    pres_b4 (init zeroState devZeroCal).2.1 = 0 ∧
    (update_pres (init zeroState devZeroCal).2.1 0 0 0).2 = none := by
  decide

/-- C6 amended: whenever the divisor `b4` computed from the current state
is nonzero — no matter how stale or uninitialized the temperature
intermediate `b5` is — `update_pres` completes without dividing by zero,
stores a compensated pressure whose underlying integer is bounded by the
`int32_t` range, and modifies no field other than `pres`. -/
theorem claim_C6_amended (s : BMP180State) (msb lsb xlsb : Nat)
    (h : pres_b4 s ≠ 0) :
    (update_pres s msb lsb xlsb).2
      = some { s with pres := (pres_p s msb lsb xlsb : ℚ) * (1 / 1000) } ∧
    -2 ^ 31 ≤ pres_p s msb lsb xlsb ∧ pres_p s msb lsb xlsb < 2 ^ 31 := by
  refine ⟨by simp [update_pres, h], ?_, ?_⟩
  · simp only [pres_p]
    exact toI32_lb _
  · simp only [pres_p]
    exact toI32_ub _

/-- C6 witness: the worked-example calibration with `b5 = 2400` has
`b4 = 33457 ≠ 0`. -/
theorem claim_C6_witness :
    pres_b4 { dsState with b5 := 2400 } ≠ 0 ∧
    ((update_pres { dsState with b5 := 2400 } 93 35 0).2
      = some { { dsState with b5 := 2400 } with
               pres := (pres_p { dsState with b5 := 2400 } 93 35 0 : ℚ) * (1 / 1000) } ∧
     -2 ^ 31 ≤ pres_p { dsState with b5 := 2400 } 93 35 0 ∧
     pres_p { dsState with b5 := 2400 } 93 35 0 < 2 ^ 31) :=
  ⟨by decide, claim_C6_amended _ 93 35 0 (by decide)⟩

/-- C2: the claim states that for any stored altitude offset, `zero_alt`
followed immediately by `get_alt` with the same reference pressure returns
0 within 1e-4.  In the code `zero_alt` stores `get_alt()` — the altitude
with the old offset already subtracted — instead of the raw altitude, so
the call reports the pre-call offset: starting from an offset of 100 (with
the worked-example calibration and readings, and a concrete `powf`
stand-in), the altitude read back after `zero_alt` is 100, not 0. -/
theorem claim_C2_zero_alt_reports_old_offset :
    ((zero_alt pwHalf { dsState with alt_zero := 100 } 27898 93 35 0
        default_sea_level_p).2.map (fun t => get_alt pwHalf t default_sea_level_p))
      = some 100 ∧ ¬ (|(100 : ℚ)| ≤ 1 / 10000) := by
  constructor
  · have h : pres_b4 (update_temp { dsState with alt_zero := 100 } 27898).2 ≠ 0 := by
      decide
    rw [get_alt_after_zero_alt _ _ _ _ _ _ _ h]
  · norm_num

/-- C7: `set_sampling` changes only the mode-dependent pressure
configuration (the stored mode, register-select command, conversion delay
and bit-shift factor); the stored temperature, pressure, temperature
intermediate `b5`, altitude offset and all eleven calibration constants
are untouched, for every state and every mode. -/
theorem claim_C7_set_sampling_frame (s : BMP180State) (m : sampling_t) :
    (set_sampling s m).temp = s.temp ∧ (set_sampling s m).pres = s.pres ∧
    (set_sampling s m).b5 = s.b5 ∧ (set_sampling s m).alt_zero = s.alt_zero ∧
    (set_sampling s m).ac1 = s.ac1 ∧ (set_sampling s m).ac2 = s.ac2 ∧
    (set_sampling s m).ac3 = s.ac3 ∧ (set_sampling s m).ac4 = s.ac4 ∧
    (set_sampling s m).ac5 = s.ac5 ∧ (set_sampling s m).ac6 = s.ac6 ∧
    (set_sampling s m).b1 = s.b1 ∧ (set_sampling s m).b2 = s.b2 ∧
    (set_sampling s m).mb = s.mb ∧ (set_sampling s m).mc = s.mc ∧
    (set_sampling s m).md = s.md := by
  cases m <;>
    exact ⟨rfl, rfl, rfl, rfl, rfl, rfl, rfl, rfl, rfl, rfl, rfl, rfl, rfl, rfl, rfl⟩

/-- C8: the four oversampling modes select conversion delays of 4500, 7500,
13500, 25500 microseconds and bit-shift factors 0, 1, 2, 3 respectively,
and `update_temp` always passes exactly 4500 microseconds to the timing
collaborator, whatever the current state (hence whatever the mode). -/
theorem claim_C8_delays_and_shifts (s : BMP180State) :
    (set_sampling s sampling_t.samples_1x).comp_time_us = 4500 ∧
    (set_sampling s sampling_t.samples_1x).oss_shift = 0 ∧
    (set_sampling s sampling_t.samples_2x).comp_time_us = 7500 ∧
    (set_sampling s sampling_t.samples_2x).oss_shift = 1 ∧
    (set_sampling s sampling_t.samples_4x).comp_time_us = 13500 ∧
    (set_sampling s sampling_t.samples_4x).oss_shift = 2 ∧
    (set_sampling s sampling_t.samples_8x).comp_time_us = 25500 ∧
    (set_sampling s sampling_t.samples_8x).oss_shift = 3 ∧
    ∀ UT : Int, (update_temp s UT).1
      = [Effect.writeReg reg_select_addr reg_select_temp,
         Effect.waitUs 4500, Effect.readSeq reg_data_addr 2] :=
  ⟨rfl, rfl, rfl, rfl, rfl, rfl, rfl, rfl, fun _ => rfl⟩

set_option maxHeartbeats 3200000 in
/-- C9: decoding a 22-byte calibration block is a function of the bytes
(deterministic) and reads the eleven constants in the fixed order `ac1 ac2
ac3` (signed), `ac4 ac5 ac6` (unsigned), `b1 b2 mb mc md` (signed), each
big-endian at consecutive 2-byte offsets; encoding any in-range constants
into such a block and decoding recovers them identically. -/
theorem claim_C9_roundtrip (a1 a2 a3 a4 a5 a6 bb1 bb2 m1 m2 m3 : Int)
    (s : BMP180State)
    (h : calInRange a1 a2 a3 a4 a5 a6 bb1 bb2 m1 m2 m3) :
    (decode_cal (encodeCal a1 a2 a3 a4 a5 a6 bb1 bb2 m1 m2 m3) s).ac1 = a1 ∧
    (decode_cal (encodeCal a1 a2 a3 a4 a5 a6 bb1 bb2 m1 m2 m3) s).ac2 = a2 ∧
    (decode_cal (encodeCal a1 a2 a3 a4 a5 a6 bb1 bb2 m1 m2 m3) s).ac3 = a3 ∧
    (decode_cal (encodeCal a1 a2 a3 a4 a5 a6 bb1 bb2 m1 m2 m3) s).ac4 = a4 ∧
    (decode_cal (encodeCal a1 a2 a3 a4 a5 a6 bb1 bb2 m1 m2 m3) s).ac5 = a5 ∧
    (decode_cal (encodeCal a1 a2 a3 a4 a5 a6 bb1 bb2 m1 m2 m3) s).ac6 = a6 ∧
    (decode_cal (encodeCal a1 a2 a3 a4 a5 a6 bb1 bb2 m1 m2 m3) s).b1 = bb1 ∧
    (decode_cal (encodeCal a1 a2 a3 a4 a5 a6 bb1 bb2 m1 m2 m3) s).b2 = bb2 ∧
    (decode_cal (encodeCal a1 a2 a3 a4 a5 a6 bb1 bb2 m1 m2 m3) s).mb = m1 ∧
    (decode_cal (encodeCal a1 a2 a3 a4 a5 a6 bb1 bb2 m1 m2 m3) s).mc = m2 ∧
    (decode_cal (encodeCal a1 a2 a3 a4 a5 a6 bb1 bb2 m1 m2 m3) s).md = m3 := by
  obtain ⟨⟨h1, h1'⟩, ⟨h2, h2'⟩, ⟨h3, h3'⟩, ⟨h4, h4'⟩, ⟨h5, h5'⟩, ⟨h6, h6'⟩,
    ⟨h7, h7'⟩, ⟨h8, h8'⟩, ⟨h9, h9'⟩, ⟨h10, h10'⟩, ⟨h11, h11'⟩⟩ := h
  have e1 : (decode_cal (encodeCal a1 a2 a3 a4 a5 a6 bb1 bb2 m1 m2 m3) s).ac1
      = beI16 ((a1 % 65536).toNat / 256) ((a1 % 65536).toNat % 256) := rfl
  have e2 : (decode_cal (encodeCal a1 a2 a3 a4 a5 a6 bb1 bb2 m1 m2 m3) s).ac2
      = beI16 ((a2 % 65536).toNat / 256) ((a2 % 65536).toNat % 256) := rfl
  have e3 : (decode_cal (encodeCal a1 a2 a3 a4 a5 a6 bb1 bb2 m1 m2 m3) s).ac3
      = beI16 ((a3 % 65536).toNat / 256) ((a3 % 65536).toNat % 256) := rfl
  have e4 : (decode_cal (encodeCal a1 a2 a3 a4 a5 a6 bb1 bb2 m1 m2 m3) s).ac4
      = (beU16 ((a4 % 65536).toNat / 256) ((a4 % 65536).toNat % 256) : Int) := rfl
  have e5 : (decode_cal (encodeCal a1 a2 a3 a4 a5 a6 bb1 bb2 m1 m2 m3) s).ac5
      = (beU16 ((a5 % 65536).toNat / 256) ((a5 % 65536).toNat % 256) : Int) := rfl
  have e6 : (decode_cal (encodeCal a1 a2 a3 a4 a5 a6 bb1 bb2 m1 m2 m3) s).ac6
      = (beU16 ((a6 % 65536).toNat / 256) ((a6 % 65536).toNat % 256) : Int) := rfl
  have e7 : (decode_cal (encodeCal a1 a2 a3 a4 a5 a6 bb1 bb2 m1 m2 m3) s).b1
      = beI16 ((bb1 % 65536).toNat / 256) ((bb1 % 65536).toNat % 256) := rfl
  have e8 : (decode_cal (encodeCal a1 a2 a3 a4 a5 a6 bb1 bb2 m1 m2 m3) s).b2
      = beI16 ((bb2 % 65536).toNat / 256) ((bb2 % 65536).toNat % 256) := rfl
  have e9 : (decode_cal (encodeCal a1 a2 a3 a4 a5 a6 bb1 bb2 m1 m2 m3) s).mb
      = beI16 ((m1 % 65536).toNat / 256) ((m1 % 65536).toNat % 256) := rfl
  have e10 : (decode_cal (encodeCal a1 a2 a3 a4 a5 a6 bb1 bb2 m1 m2 m3) s).mc
      = beI16 ((m2 % 65536).toNat / 256) ((m2 % 65536).toNat % 256) := rfl
  have e11 : (decode_cal (encodeCal a1 a2 a3 a4 a5 a6 bb1 bb2 m1 m2 m3) s).md
      = beI16 ((m3 % 65536).toNat / 256) ((m3 % 65536).toNat % 256) := rfl
  exact ⟨e1.trans (beI16_encodeI16 a1 h1 h1'), e2.trans (beI16_encodeI16 a2 h2 h2'),
    e3.trans (beI16_encodeI16 a3 h3 h3'), e4.trans (beU16_encodeI16 a4 h4 h4'),
    e5.trans (beU16_encodeI16 a5 h5 h5'), e6.trans (beU16_encodeI16 a6 h6 h6'),
    e7.trans (beI16_encodeI16 bb1 h7 h7'), e8.trans (beI16_encodeI16 bb2 h8 h8'),
    e9.trans (beI16_encodeI16 m1 h9 h9'), e10.trans (beI16_encodeI16 m2 h10 h10'),
    e11.trans (beI16_encodeI16 m3 h11 h11')⟩

/-- C9 witness: the worked-example calibration constants survive the
encode-decode round trip. -/
theorem claim_C9_witness :
    calInRange 408 (-72) (-14383) 32741 32757 23153 6190 4 (-32768) (-8711) 2868 ∧
    ((decode_cal (encodeCal 408 (-72) (-14383) 32741 32757 23153 6190 4
        (-32768) (-8711) 2868) zeroState).ac1 = 408 ∧
     (decode_cal (encodeCal 408 (-72) (-14383) 32741 32757 23153 6190 4
        (-32768) (-8711) 2868) zeroState).ac2 = -72 ∧
     (decode_cal (encodeCal 408 (-72) (-14383) 32741 32757 23153 6190 4
        (-32768) (-8711) 2868) zeroState).ac3 = -14383 ∧
     (decode_cal (encodeCal 408 (-72) (-14383) 32741 32757 23153 6190 4
        (-32768) (-8711) 2868) zeroState).ac4 = 32741 ∧
     (decode_cal (encodeCal 408 (-72) (-14383) 32741 32757 23153 6190 4
        (-32768) (-8711) 2868) zeroState).ac5 = 32757 ∧
     (decode_cal (encodeCal 408 (-72) (-14383) 32741 32757 23153 6190 4
        (-32768) (-8711) 2868) zeroState).ac6 = 23153 ∧
     (decode_cal (encodeCal 408 (-72) (-14383) 32741 32757 23153 6190 4
        (-32768) (-8711) 2868) zeroState).b1 = 6190 ∧
     (decode_cal (encodeCal 408 (-72) (-14383) 32741 32757 23153 6190 4
        (-32768) (-8711) 2868) zeroState).b2 = 4 ∧
     (decode_cal (encodeCal 408 (-72) (-14383) 32741 32757 23153 6190 4
        (-32768) (-8711) 2868) zeroState).mb = -32768 ∧
     (decode_cal (encodeCal 408 (-72) (-14383) 32741 32757 23153 6190 4
        (-32768) (-8711) 2868) zeroState).mc = -8711 ∧
     (decode_cal (encodeCal 408 (-72) (-14383) 32741 32757 23153 6190 4
        (-32768) (-8711) 2868) zeroState).md = 2868) :=
  ⟨by decide,
   claim_C9_roundtrip 408 (-72) (-14383) 32741 32757 23153 6190 4
     (-32768) (-8711) 2868 zeroState (by decide)⟩

/-- Changing only `mb` commutes with `update_pres`: the pressure update
never reads `mb`. -/
theorem update_pres_mb (s : BMP180State) (v : Int) (msb lsb xlsb : Nat) :
    (update_pres { s with mb := v } msb lsb xlsb).2
      = Option.map (fun t => { t with mb := v }) (update_pres s msb lsb xlsb).2 := by
  by_cases h0 : pres_b4 s = 0
  · have h0' : pres_b4 { s with mb := v } = 0 := h0
    simp [update_pres, h0, h0']
  · have h0' : ¬ pres_b4 { s with mb := v } = 0 := h0
    have hp0 : pres_p { s with mb := v } msb lsb xlsb = pres_p s msb lsb xlsb := rfl
    simp [update_pres, h0, h0', hp0]

/-- C10: the calibration constant `mb` is read from the device at
initialization but never used: two states differing only in `mb` produce
identical effects and outputs under every public operation (temperature
update, pressure update, temperature/pressure/altitude reads and
zero-altitude calibration), and resulting states again differing only in
`mb`. -/
theorem claim_C10_mb_never_used (s : BMP180State) (v : Int) (UT : Int)
    (msb lsb xlsb : Nat) (pw : ℚ → ℚ → ℚ) (sea : ℚ) :
    update_temp { s with mb := v } UT
      = ((update_temp s UT).1, { (update_temp s UT).2 with mb := v }) ∧
    (update_pres { s with mb := v } msb lsb xlsb).1
      = (update_pres s msb lsb xlsb).1 ∧
    (update_pres { s with mb := v } msb lsb xlsb).2
      = Option.map (fun t => { t with mb := v }) (update_pres s msb lsb xlsb).2 ∧
    get_temp { s with mb := v } = get_temp s ∧
    get_pres { s with mb := v } = get_pres s ∧
    get_alt pw { s with mb := v } sea = get_alt pw s sea ∧
    (zero_alt pw { s with mb := v } UT msb lsb xlsb sea).1
      = (zero_alt pw s UT msb lsb xlsb sea).1 ∧
    (zero_alt pw { s with mb := v } UT msb lsb xlsb sea).2
      = Option.map (fun t => { t with mb := v }) (zero_alt pw s UT msb lsb xlsb sea).2 := by
  refine ⟨rfl, rfl, update_pres_mb s v msb lsb xlsb, rfl, rfl, rfl, rfl, ?_⟩
  have ht : (update_temp { s with mb := v } UT).2
      = { (update_temp s UT).2 with mb := v } := rfl
  simp only [zero_alt, update]
  rw [ht, update_pres_mb]
  cases hx : (update_pres (update_temp s UT).2 msb lsb xlsb).2
  · rfl
  · rfl

end BMP180
